import Mathlib

/-!
Verification development for the insights-upload content-staging storage
broker.  The repository ships its test suite (`tests/test_storages.py`) and a
container-orchestration script (`docker/podman-ctl.py`); the storage backends
themselves (`utils/storage/localdisk.py`, `utils/storage/s3.py`) and the
telemetry helper (`utils/mnm.py`) are modelled here from the specification,
with every behavioural choice pinned to the assertions the repository's own
tests make about those modules.

The shallow embedding represents the filesystem and the object store as
association lists from (location, key) to byte content (bytes as `String`),
and every fallible operation returns `Except`.
-/

set_option autoImplicit false

deriving instance DecidableEq for Except

/-- A flat store mapping a (location, key) pair to a content string.  Used
both for the local filesystem (directory, file name) and for the object store
(bucket, object key). -/
def Store := List (String × String × String)

instance : DecidableEq Store := by
  unfold Store
  infer_instance

/-- Look up the content stored under (loc, key). -/
def Store.get (s : Store) (loc key : String) : Option String :=
  (s.find? fun x => x.1 == loc && x.2.1 == key).map fun x => x.2.2

/-- Store content under (loc, key), replacing any previous entry (models
opening a file for writing / putting an object). -/
def Store.put (s : Store) (loc key content : String) : Store :=
  (loc, key, content) :: s.filter fun x => !(x.1 == loc && x.2.1 == key)

/-- Remove the entry under (loc, key) (models unlinking a file). -/
def Store.del (s : Store) (loc key : String) : Store :=
  s.filter fun x => !(x.1 == loc && x.2.1 == key)

/-- State of the local filesystem: the set of directories that exist, and the
files they hold. -/
structure FS where
  dirs : List String
  files : Store
deriving DecidableEq

/-- Does the directory `d` exist?  Models `os.path.isdir`. -/
def FS.isdir (fs : FS) (d : String) : Bool :=
  fs.dirs.contains d

/-- Read the content of the file `name` inside directory `d`. -/
def FS.readFile (fs : FS) (d name : String) : Option String :=
  fs.files.get d name

/-- Does the file exist?  Models `os.path.isfile`. -/
def FS.isfile (fs : FS) (d name : String) : Bool :=
  (fs.readFile d name).isSome

/-- The error raised by local filesystem operations on missing paths
(Python's `FileNotFoundError`). -/
inductive FsError where
  | fileNotFound : FsError
deriving DecidableEq

namespace localdisk

/-- Modelled from the spec: `utils/storage/localdisk.py` is not in the tree.
Stage directory for freshly received artifacts. -/
def QUARANTINE : String := "tmp/uploads/quarantine"

/-- Modelled from the spec: stage directory for accepted artifacts. -/
def PERM : String := "tmp/uploads/perm"

/-- Modelled from the spec: stage directory for rejected artifacts. -/
def REJECT : String := "tmp/uploads/reject"

/-- Modelled from the spec: the list of configured stage directories, named
`dirs` in the module (`tests/test_storages.py::test_stage` iterates it). -/
def dirs : List String := [QUARANTINE, PERM, REJECT]

/-- Modelled from the spec: the progress record returned by the local
backend's `write`.  Per the spec it "reports completion synchronously:
percentage=100 and time_last_updated set to the call's own completion time";
`test_write_callback` asserts exactly those two attributes. -/
structure DummyCallback where
  percentage : Nat
  time_last_updated : Nat
deriving DecidableEq

/-- Modelled from the spec: the explicit setup operation; "ensures all stage
directories exist, creating any missing ones — idempotent".  `test_stage`
runs it with no folders present and checks every entry of `dirs` exists. -/
def stage (fs : FS) : FS :=
  { fs with dirs := (dirs.filter fun d => !(fs.dirs.contains d)) ++ fs.dirs }

/-- Directory state `write` operates in: when the destination directory is
missing, `write` first runs the `stage` setup. -/
def ensure (fs : FS) (dest : String) : FS :=
  if fs.isdir dest then fs else stage fs

/-- Modelled from the spec and pinned by the tests: `write(data, dest, uuid)`.
`test_write_no_folders_at_all` shows that a write to a configured stage
succeeds even when no stage directory exists yet (so `write` runs the setup
operation when the destination directory is missing), while
`test_write_wrong_destination` shows that a write to a directory that is not
a configured stage raises `FileNotFoundError`.  On success it returns the
file path `dest/uuid` and a `DummyCallback`; `now` is the wall-clock time at
which the call completes. -/
def write (fs : FS) (now : Nat) (data dest uuid : String) :
    Except FsError (FS × String × DummyCallback) :=
  if (ensure fs dest).isdir dest then
    .ok (⟨(ensure fs dest).dirs, (ensure fs dest).files.put dest uuid data⟩,
      dest ++ "/" ++ uuid, ⟨100, now⟩)
  else
    .error .fileNotFound

/-- Modelled from the spec and pinned by the tests: `ls(src, uuid)` returns
`True` when the file exists and `None` otherwise (`test_ls` asserts the
result `is True`, `test_ls_file_not_found` asserts it `is None`). -/
def ls (fs : FS) (src uuid : String) : Option Bool :=
  if fs.isfile src uuid then some true else none

/-- Modelled from the spec and pinned by the tests: `copy(src, dest, uuid)`.
`test_copy` asserts that after a successful copy the destination file holds
the source's checksum but re-opening the source path raises
`FileNotFoundError` — i.e. the local backend relocates the file (an
`os.rename`-style move), contradicting the spec's "source file remains in
place".  A missing source, or a missing destination directory, raises
`FileNotFoundError`. -/
def copy (fs : FS) (src dest uuid : String) : Except FsError (FS × String) :=
  match fs.readFile src uuid with
  | none => .error .fileNotFound
  | some content =>
    if fs.isdir dest then
      .ok (⟨fs.dirs, (fs.files.del src uuid).put dest uuid content⟩,
        dest ++ "/" ++ uuid)
    else
      .error .fileNotFound

/-- Modelled from the spec: `up_check` "returns whether the stage directory
exists and is a directory"; a total boolean, it never raises. -/
def up_check (fs : FS) (d : String) : Bool :=
  fs.isdir d

end localdisk

/-- The error raised by the object-store client (botocore's `ClientError`);
carries the stringified message the tests compare against. -/
structure ClientError where
  message : String
deriving DecidableEq

namespace s3

/-- State of the (mocked) object store: which buckets exist, and the objects
they hold. -/
structure S3 where
  buckets : List String
  objects : Store
deriving DecidableEq

/-- Modelled from the spec: `utils/storage/s3.py` is not in the tree.
Quarantine-stage bucket name. -/
def QUARANTINE : String := "insights-upload-quarantine"

/-- Modelled from the spec: permanent-stage bucket name. -/
def PERM : String := "insights-upload-perm"

/-- Modelled from the spec: reject-stage bucket name. -/
def REJECT : String := "insights-upload-rejected"

/-- Does the bucket exist?  Models a successful HEAD-bucket call. -/
def S3.hasBucket (st : S3) (b : String) : Bool :=
  st.buckets.contains b

/-- Read the content of the object `key` in `bucket`. -/
def S3.readObject (st : S3) (bucket key : String) : Option String :=
  st.objects.get bucket key

/-- Modelled from the spec: the live progress handle returned by the object
backend's `write` (class `UploadProgress` in `utils/storage/s3.py`); by
return time of the synchronous model the transfer is complete. -/
structure UploadProgress where
  percentage : Nat
deriving DecidableEq

/-- Query string appended by URL presigning; contains no slash and no
question mark, so the key segment of a presigned URL is delimited
unambiguously. -/
def sig : String := "X-Amz-Credential=mock"

/-- Modelled from the spec: the URL-shaped location descriptor the object
backend returns, embedding bucket and key ("a composed string embedding
bucket and key (URL-shaped)").  Virtual-hosted style, so that the key is the
fourth slash-separated segment, as the test helper `_get_key` extracts it. -/
def url (bucket key : String) : String :=
  "https://" ++ bucket ++ ".s3.amazonaws.com/" ++ key ++ "?" ++ sig

/-- Modelled from the spec: `write(data, dest, uuid)` streams the content of
the local file into the destination bucket and returns the presigned URL of
the uploaded object together with the `UploadProgress` handle
(`test_write` checks the pair and that the bucket name occurs in the URL).
A missing destination bucket surfaces as a generic transport `ClientError`
("treated as a failed write"). -/
def write (st : S3) (data dest uuid : String) :
    Except ClientError (S3 × String × UploadProgress) :=
  if st.hasBucket dest then
    .ok (⟨st.buckets, st.objects.put dest uuid data⟩, url dest uuid, ⟨100⟩)
  else
    .error ⟨"An error occurred (404) when calling the PutObject operation: Not Found"⟩

/-- Modelled from the spec: `copy(src, dest, uuid)` issues a server-side
copy — the source object stays in place, the destination bucket gains an
object with the same key and content — and returns the destination URL.  A
missing source or destination surfaces as a generic `ClientError`. -/
def copy (st : S3) (src dest uuid : String) : Except ClientError (S3 × String) :=
  match st.readObject src uuid with
  | none => .error ⟨"An error occurred (404) when calling the CopyObject operation: Not Found"⟩
  | some content =>
    if st.hasBucket dest then
      .ok (⟨st.buckets, st.objects.put dest uuid content⟩, url dest uuid)
    else
      .error ⟨"An error occurred (404) when calling the CopyObject operation: Not Found"⟩

/-- Response metadata mapping mirrored from the remote store. -/
structure RespMeta where
  HTTPStatusCode : Nat
deriving DecidableEq

/-- Result mapping of a HEAD-object metadata query: content length plus the
mirrored response metadata (`test_ls` reads `ContentLength` and
`ResponseMetadata.HTTPStatusCode`). -/
structure HeadObject where
  ContentLength : Nat
  ResponseMetadata : RespMeta
deriving DecidableEq

/-- Modelled from the spec: `ls(src, uuid)` issues a HEAD-object call; on a
present object it returns the metadata mapping with status 200, on a missing
object it raises `ClientError` with exactly the message
`test_ls_not_found` asserts. -/
def ls (st : S3) (src uuid : String) : Except ClientError HeadObject :=
  match st.readObject src uuid with
  | some content => .ok ⟨content.length, ⟨200⟩⟩
  | none => .error ⟨"An error occurred (404) when calling the HeadObject operation: Not Found"⟩

/-- Modelled from the spec: `up_check` performs a HEAD-bucket probe and
converts any client error into `false` instead of raising, so it is a total
boolean. -/
def up_check (st : S3) (b : String) : Bool :=
  st.hasBucket b

end s3

namespace mnm

/-- An HTTP POST recorded against the telemetry endpoint. -/
structure HttpCall where
  postUrl : String
  payload : List (String × Nat)
deriving DecidableEq

/-- Telemetry endpoint written to by `send_to_influxdb`. -/
def influxdb_url : String := "http://influxdb.example.com/write"

/-- Modelled from the spec: `utils/mnm.py` is not in the tree.
`send_to_influxdb(values)` posts the numeric payload to the telemetry
endpoint when credentials are configured and is a silent no-op otherwise
("absence of credentials is a silent no-op (no event sent, no error
raised)").  The model returns the list of HTTP calls made together with the
Python return value, which is `None` in every case
(`test_send_to_influxdb*` assert the response `is None` and count
`responses.calls`). -/
def send_to_influxdb (creds : Option (String × String))
    (values : List (String × Nat)) : List HttpCall × Option Nat :=
  match creds with
  | none => ([], none)
  | some _ => ([⟨influxdb_url, values⟩], none)

end mnm

namespace podman

/-- A value held by an attribute of an argparse namespace (the script's
attributes are the string `state`/`compose_file` and the boolean `build`). -/
inductive Attr where
  | str : String → Attr
  | bool : Bool → Attr
deriving DecidableEq

/-- Python `getattr` on an argparse namespace: a missing attribute raises
`AttributeError`. -/
def getattr (ns : List (String × Attr)) (name : String) : Except String Attr :=
  match ns.find? fun p => p.1 == name with
  | some p => .ok p.2
  | none => .error ("AttributeError: " ++ name)

/-- The namespace produced by `parser.parse_args()` in
`docker/podman-ctl.py`: `add_argument('state', ...)` binds `state`,
`add_argument('--build', '-b', action='store_true')` binds the single
attribute `build` (argparse derives the destination from the first long
option; no attribute `b` is ever created), and
`add_argument('--compose_file', ...)` binds `compose_file`. -/
def parse_args (state : String) (build : Bool) (compose_file : String) :
    List (String × Attr) :=
  [("state", .str state), ("build", .bool build),
   ("compose_file", .str compose_file)]

/-- Python truthiness of an attribute value. -/
def truthy : Attr → Bool
  | .bool b => b
  | .str s => !(s == "")

/-- The build gate `args.build or args.b` of `docker/podman-ctl.py` line 28:
Python `or` evaluates the left operand and returns it when truthy, otherwise
it evaluates the right operand — and `getattr args "b"` raises. -/
def build_gate (ns : List (String × Attr)) : Except String Attr :=
  match getattr ns "build" with
  | .error e => .error e
  | .ok v => if truthy v then .ok v else getattr ns "b"

end podman

/-- Models `os.path.basename`: the part of the path after the last slash.
Used by the tests to extract the key portion of a local location
descriptor. -/
def basename (s : String) : String :=
  String.mk ((s.data.reverse.takeWhile fun c => !(c == '/')).reverse)

/-- Split a character list on a separator, keeping empty segments — the
semantics of Python's `str.split` with an explicit separator. -/
def splitOnChar (sep : Char) : List Char → List (List Char)
  | [] => [[]]
  | c :: cs =>
    match splitOnChar sep cs with
    | [] => [[]]
    | r :: rs => if c == sep then [] :: r :: rs else (c :: r) :: rs

/-- Models the test helper `_get_key` of `TestS3.test_copy`:
`r.split('/')[3]` truncated at the first question mark (the keys compared by
the test always come from presigned URLs, which carry a query string). -/
def get_key (r : String) : String :=
  String.mk (((splitOnChar '/' r.data).getD 3 []).takeWhile fun c => !(c == '?'))

/-- A freshly staged local filesystem — all three stage directories exist
and no file has been written yet (the `with_local_folders` fixture). -/
def fs0 : FS := localdisk.stage ⟨[], []⟩

/-- A freshly provisioned object store — the three stage buckets exist and
hold no objects (the `s3_mocked` fixture). -/
def st0 : s3.S3 := ⟨[s3.QUARANTINE, s3.PERM, s3.REJECT], []⟩

/-- The local filesystem after writing "abc" under key "key1" to
quarantine. -/
def fsA : FS :=
  ⟨[localdisk.QUARANTINE, localdisk.PERM, localdisk.REJECT],
   [(localdisk.QUARANTINE, "key1", "abc")]⟩

/-- The local filesystem after copying key "key1" from quarantine to perm:
the quarantine entry is gone. -/
def fsB : FS :=
  ⟨[localdisk.QUARANTINE, localdisk.PERM, localdisk.REJECT],
   [(localdisk.PERM, "key1", "abc")]⟩

/-- The local filesystem after writing the five-byte "abcde" under key
"key1" to quarantine. -/
def fsA5 : FS :=
  ⟨[localdisk.QUARANTINE, localdisk.PERM, localdisk.REJECT],
   [(localdisk.QUARANTINE, "key1", "abcde")]⟩

/-- The object store after writing "abc" under key "key1" to the quarantine
bucket. -/
def stA : s3.S3 :=
  ⟨[s3.QUARANTINE, s3.PERM, s3.REJECT],
   [(s3.QUARANTINE, "key1", "abc")]⟩

/-- The object store after copying key "key1" from the quarantine bucket to
the perm bucket: both buckets hold the object. -/
def stB : s3.S3 :=
  ⟨[s3.QUARANTINE, s3.PERM, s3.REJECT],
   [(s3.PERM, "key1", "abc"), (s3.QUARANTINE, "key1", "abc")]⟩

section ListLemmas

/-- Unfolding equation of `splitOnChar` on a cons cell. -/
theorem splitOnChar_cons (sep c : Char) (cs : List Char) :
    splitOnChar sep (c :: cs) =
      match splitOnChar sep cs with
      | [] => [[]]
      | r :: rs => if c == sep then [] :: r :: rs else (c :: r) :: rs := rfl

/-- takeWhile of a list that fully satisfies the predicate, followed by a
failing element, is exactly the first list. -/
theorem takeWhile_append_stop {α : Type} (p : α → Bool) (l r : List α) (x : α)
    (hl : ∀ a ∈ l, p a = true) (hx : p x = false) :
    (l ++ x :: r).takeWhile p = l := by
  induction l with
  | nil => simp [List.takeWhile_cons, hx]
  | cons a as ih =>
    have ha : p a = true := hl a (by simp)
    have ih' := ih fun b hb => hl b (by simp [hb])
    simp [List.takeWhile_cons, ha, ih']

/-- splitOnChar never returns the empty list of segments. -/
theorem splitOnChar_ne_nil (sep : Char) (l : List Char) :
    splitOnChar sep l ≠ [] := by
  cases l with
  | nil => simp [splitOnChar]
  | cons c cs =>
    rw [splitOnChar_cons]
    cases h : splitOnChar sep cs with
    | nil => simp
    | cons r rs =>
      by_cases hc : (c == sep) = true <;> simp [hc]

/-- splitOnChar of a separator-free list is that single segment. -/
theorem splitOnChar_no_sep (sep : Char) (l : List Char)
    (h : ∀ c ∈ l, (c == sep) = false) :
    splitOnChar sep l = [l] := by
  induction l with
  | nil => rfl
  | cons a as ih =>
    have ha : (a == sep) = false := h a (by simp)
    have ih' := ih fun c hc => h c (by simp [hc])
    rw [splitOnChar_cons, ih']
    simp [ha]

/-- Prepending a separator-free prefix extends the first segment. -/
theorem splitOnChar_append (sep : Char) (l r : List Char) (x : List Char)
    (xs : List (List Char)) (hl : ∀ c ∈ l, (c == sep) = false)
    (hr : splitOnChar sep r = x :: xs) :
    splitOnChar sep (l ++ r) = (l ++ x) :: xs := by
  induction l with
  | nil => simpa using hr
  | cons a as ih =>
    have ha : (a == sep) = false := hl a (by simp)
    have ih' := ih fun c hc => hl c (by simp [hc])
    rw [List.cons_append, splitOnChar_cons, ih']
    simp [ha]

/-- Prepending the separator itself starts a fresh empty segment. -/
theorem splitOnChar_sep_cons (sep : Char) (r : List Char) (x : List Char)
    (xs : List (List Char)) (hr : splitOnChar sep r = x :: xs) :
    splitOnChar sep (sep :: r) = [] :: x :: xs := by
  rw [splitOnChar_cons, hr]
  simp

end ListLemmas

section UrlLemmas

/-- The host suffix of a virtual-hosted-style presigned URL, slash-free. -/
theorem host_suffix_no_slash :
    ∀ c ∈ ".s3.amazonaws.com".data, (c == '/') = false := by decide

/-- The query string of the modelled presigned URL is slash-free. -/
theorem sig_no_slash : ∀ c ∈ s3.sig.data, (c == '/') = false := by decide

/-- Splitting the modelled presigned URL on slashes yields the scheme, an
empty segment, the host, and the key together with the query string. -/
theorem splitOnChar_url (bucket key : String)
    (hb : ∀ c ∈ bucket.data, (c == '/') = false)
    (hk : ∀ c ∈ key.data, (c == '/') = false) :
    splitOnChar '/' (s3.url bucket key).data =
      ["https:".data, [],
       bucket.data ++ ".s3.amazonaws.com".data,
       key.data ++ '?' :: s3.sig.data] := by
  have hdata : (s3.url bucket key).data =
      "https:".data ++ '/' :: '/' ::
        ((bucket.data ++ ".s3.amazonaws.com".data) ++
          '/' :: (key.data ++ '?' :: s3.sig.data)) := by
    show ("https://" ++ bucket ++ ".s3.amazonaws.com/" ++ key ++ "?" ++ s3.sig).data = _
    simp only [String.data_append]
    simp [List.append_assoc]
  rw [hdata]
  have hhost : ∀ c ∈ bucket.data ++ ".s3.amazonaws.com".data, (c == '/') = false := by
    intro c hc
    rcases List.mem_append.mp hc with h | h
    · exact hb c h
    · exact host_suffix_no_slash c h
  have htail : ∀ c ∈ key.data ++ '?' :: s3.sig.data, (c == '/') = false := by
    intro c hc
    rcases List.mem_append.mp hc with h | h
    · exact hk c h
    · rcases List.mem_cons.mp h with h | h
      · subst h; decide
      · exact sig_no_slash c h
  have e1 : splitOnChar '/' (key.data ++ '?' :: s3.sig.data) =
      [key.data ++ '?' :: s3.sig.data] := splitOnChar_no_sep _ _ htail
  have e2 := splitOnChar_sep_cons '/' _ _ _ e1
  have e3 := splitOnChar_append '/' (bucket.data ++ ".s3.amazonaws.com".data)
    _ _ _ hhost e2
  rw [List.append_nil] at e3
  have e4 := splitOnChar_sep_cons '/' _ _ _ e3
  have e5 := splitOnChar_sep_cons '/' _ _ _ e4
  have e6 := splitOnChar_append '/' "https:".data _ _ _ (by decide) e5
  rw [List.append_nil] at e6
  exact e6

/-- The test helper recovers the key from a modelled presigned URL. -/
theorem get_key_url (bucket key : String)
    (hb : ∀ c ∈ bucket.data, (c == '/') = false)
    (hk1 : ∀ c ∈ key.data, (c == '/') = false)
    (hk2 : ∀ c ∈ key.data, (c == '?') = false) :
    get_key (s3.url bucket key) = key := by
  unfold get_key
  rw [splitOnChar_url bucket key hb hk1]
  show String.mk ((key.data ++ '?' :: s3.sig.data).takeWhile _) = key
  rw [takeWhile_append_stop _ _ _ _ (fun a ha => by simp [hk2 a ha]) (by decide)]

/-- The basename of a directory-slash-key path is the key, provided the key
itself contains no slash. -/
theorem basename_of_join (d k : String)
    (hk : ∀ c ∈ k.data, (c == '/') = false) :
    basename (d ++ "/" ++ k) = k := by
  unfold basename
  have hdata : (d ++ "/" ++ k).data = d.data ++ '/' :: k.data := by
    simp only [String.data_append]
    simp
  rw [hdata]
  have hrev : (d.data ++ '/' :: k.data).reverse =
      k.data.reverse ++ '/' :: d.data.reverse := by
    simp
  rw [hrev]
  rw [takeWhile_append_stop _ _ _ _
    (fun a ha => by simp [hk a (List.mem_reverse.mp ha)]) (by decide)]
  rw [List.reverse_reverse]

/-- Appending a common suffix to different strings yields different
strings. -/
theorem append_right_ne (a b t : String) (h : a ≠ b) : a ++ t ≠ b ++ t := by
  intro he
  apply h
  have hd : (a ++ t).data = (b ++ t).data := by rw [he]
  simp only [String.data_append] at hd
  have hd2 := List.append_cancel_right hd
  cases a
  cases b
  exact congrArg String.mk hd2

/-- Distinct buckets produce distinct presigned URLs for the same key. -/
theorem url_ne_of_bucket_ne (b1 b2 key : String) (h : b1 ≠ b2) :
    s3.url b1 key ≠ s3.url b2 key := by
  unfold s3.url
  intro he
  apply h
  have hd : ("https://" ++ b1 ++ ".s3.amazonaws.com/" ++ key ++ "?" ++ s3.sig).data =
      ("https://" ++ b2 ++ ".s3.amazonaws.com/" ++ key ++ "?" ++ s3.sig).data := by
    rw [he]
  simp only [String.data_append, List.append_assoc] at hd
  have hd2 := List.append_cancel_left hd
  have hd3 := List.append_cancel_right hd2
  cases b1
  cases b2
  exact congrArg String.mk hd3

end UrlLemmas

section StoreLemmas

/-- Filtering by a predicate the searched-for elements satisfy does not
change the result of the search. -/
theorem find?_filter_of_imp {α : Type} (l : List α) (p q : α → Bool)
    (h : ∀ x, p x = true → q x = true) :
    (l.filter q).find? p = l.find? p := by
  induction l with
  | nil => rfl
  | cons a as ih =>
    by_cases hp : p a = true
    · have hq := h a hp
      rw [List.filter_cons_of_pos hq, List.find?_cons_of_pos as hp,
        List.find?_cons_of_pos _ hp]
    · have hp' : ¬ p a := by simp [hp]
      by_cases hq : q a = true
      · rw [List.filter_cons_of_pos hq, List.find?_cons_of_neg _ hp',
          List.find?_cons_of_neg as hp', ih]
      · rw [List.filter_cons_of_neg (by simp [hq]), List.find?_cons_of_neg as hp', ih]

/-- Searching for elements the filter has removed finds nothing. -/
theorem find?_filter_of_excl {α : Type} (l : List α) (p q : α → Bool)
    (h : ∀ x, p x = true → q x = false) :
    (l.filter q).find? p = none := by
  induction l with
  | nil => rfl
  | cons a as ih =>
    by_cases hp : p a = true
    · have hq := h a hp
      rw [List.filter_cons_of_neg (by simp [hq]), ih]
    · have hp' : ¬ p a := by simp [hp]
      by_cases hq : q a = true
      · rw [List.filter_cons_of_pos hq, List.find?_cons_of_neg _ hp', ih]
      · rw [List.filter_cons_of_neg (by simp [hq]), ih]

/-- Reading back the entry just stored. -/
theorem Store.get_put_same (s : Store) (loc key content : String) :
    (s.put loc key content).get loc key = some content := by
  unfold Store.put Store.get
  rw [List.find?_cons_of_pos _ (by simp)]
  rfl

/-- Storing under one (location, key) pair leaves every other pair
unchanged. -/
theorem Store.get_put_other (s : Store) (loc key content loc' key' : String)
    (h : ¬(loc' = loc ∧ key' = key)) :
    (s.put loc key content).get loc' key' = s.get loc' key' := by
  unfold Store.put Store.get
  rw [List.find?_cons_of_neg _ (by simp; intro he; exact fun hk => h ⟨he.symm, hk.symm⟩)]
  rw [find?_filter_of_imp]
  intro x hx
  simp at hx ⊢
  rcases hx with ⟨h1, h2⟩
  by_cases hl : loc' = loc
  · right
    intro hk
    exact h ⟨hl, h2.symm.trans hk⟩
  · left
    rw [h1]
    exact hl

/-- A deleted entry is gone. -/
theorem Store.get_del_same (s : Store) (loc key : String) :
    (s.del loc key).get loc key = none := by
  unfold Store.del Store.get
  rw [find?_filter_of_excl]
  · rfl
  · intro x hx
    simp at hx ⊢
    exact hx

/-- Deleting one (location, key) pair leaves every other pair unchanged. -/
theorem Store.get_del_other (s : Store) (loc key loc' key' : String)
    (h : ¬(loc' = loc ∧ key' = key)) :
    (s.del loc key).get loc' key' = s.get loc' key' := by
  unfold Store.del Store.get
  rw [find?_filter_of_imp]
  intro x hx
  simp at hx ⊢
  rcases hx with ⟨h1, h2⟩
  by_cases hl : loc' = loc
  · right
    intro hk
    exact h ⟨hl, h2.symm.trans hk⟩
  · left
    rw [h1]
    exact hl

end StoreLemmas

section BackendLemmas

/-- After the setup operation a directory exists iff it existed before or is
a configured stage directory. -/
theorem isdir_stage (fs : FS) (d : String) :
    (localdisk.stage fs).isdir d = (fs.isdir d || localdisk.dirs.contains d) := by
  unfold localdisk.stage FS.isdir
  by_cases h1 : d ∈ fs.dirs <;> by_cases h2 : d ∈ localdisk.dirs <;>
    simp [List.mem_filter, h1, h2]

/-- A configured stage directory exists in the state `write` operates in. -/
theorem isdir_ensure_of_dirs (fs : FS) (dest : String)
    (h : dest ∈ localdisk.dirs) : (localdisk.ensure fs dest).isdir dest = true := by
  unfold localdisk.ensure
  by_cases hd : fs.isdir dest = true
  · simp [hd]
  · simp only [Bool.not_eq_true] at hd
    simp [hd, isdir_stage, h]

/-- Everything a successful local write determines: the returned path, the
synchronously completed progress record, and the stored content. -/
theorem localdisk_write_ok (fs : FS) (now : Nat) (data dest uuid : String)
    (fs1 : FS) (p : String) (cb : localdisk.DummyCallback)
    (h : localdisk.write fs now data dest uuid = .ok (fs1, p, cb)) :
    p = dest ++ "/" ++ uuid ∧ cb = ⟨100, now⟩ ∧
      fs1.readFile dest uuid = some data := by
  unfold localdisk.write at h
  split at h
  · simp only [Except.ok.injEq, Prod.mk.injEq] at h
    obtain ⟨hfs, hp, hcb⟩ := h
    subst hfs
    subst hp
    subst hcb
    exact ⟨rfl, rfl, Store.get_put_same _ _ _ _⟩
  · exact absurd h (by simp)

/-- A local write to a configured stage directory always succeeds, whatever
directories currently exist. -/
theorem localdisk_write_ok_of_dirs (fs : FS) (now : Nat) (data dest uuid : String)
    (h : dest ∈ localdisk.dirs) :
    localdisk.write fs now data dest uuid =
      .ok (⟨(localdisk.ensure fs dest).dirs,
            (localdisk.ensure fs dest).files.put dest uuid data⟩,
        dest ++ "/" ++ uuid, ⟨100, now⟩) := by
  unfold localdisk.write
  rw [isdir_ensure_of_dirs fs dest h]
  simp

/-- A local write to a destination that neither exists nor is a configured
stage directory raises `FileNotFoundError`. -/
theorem localdisk_write_err (fs : FS) (now : Nat) (data dest uuid : String)
    (h1 : fs.isdir dest = false) (h2 : localdisk.dirs.contains dest = false) :
    localdisk.write fs now data dest uuid = .error .fileNotFound := by
  unfold localdisk.write
  have hd : (localdisk.ensure fs dest).isdir dest = false := by
    unfold localdisk.ensure
    have h2' : dest ∉ localdisk.dirs := by simpa using h2
    simp [h1, isdir_stage, h2']
  simp [hd]

/-- Everything a successful local copy determines: the source content, the
returned destination path, the content now at the destination — and that the
source entry is gone (the move semantics the repository's `test_copy`
asserts). -/
theorem localdisk_copy_ok (fs : FS) (src dest uuid : String) (fs2 : FS) (p : String)
    (h : localdisk.copy fs src dest uuid = .ok (fs2, p)) :
    ∃ content, fs.readFile src uuid = some content ∧
      p = dest ++ "/" ++ uuid ∧
      fs2.readFile dest uuid = some content ∧
      (src ≠ dest → fs2.readFile src uuid = none) := by
  unfold localdisk.copy at h
  split at h
  · exact Except.noConfusion h
  · rename_i content hr
    split at h
    · simp only [Except.ok.injEq, Prod.mk.injEq] at h
      obtain ⟨hfs, hp⟩ := h
      subst hfs
      subst hp
      refine ⟨content, hr, rfl, Store.get_put_same _ _ _ _, ?_⟩
      intro hne
      show ((fs.files.del src uuid).put dest uuid content).get src uuid = none
      rw [Store.get_put_other _ _ _ _ _ _ fun hc => hne hc.1]
      exact Store.get_del_same _ _ _
    · exact Except.noConfusion h

/-- Everything a successful object-store write determines: the returned
presigned URL, the stored content, and the unchanged bucket list. -/
theorem s3_write_ok (st : s3.S3) (data dest uuid : String)
    (st1 : s3.S3) (u : String) (up : s3.UploadProgress)
    (h : s3.write st data dest uuid = .ok (st1, u, up)) :
    u = s3.url dest uuid ∧ st1.readObject dest uuid = some data ∧
      st1.buckets = st.buckets := by
  unfold s3.write at h
  split at h
  · simp only [Except.ok.injEq, Prod.mk.injEq] at h
    obtain ⟨hst, hu, hup⟩ := h
    subst hst
    subst hu
    exact ⟨rfl, Store.get_put_same _ _ _ _, rfl⟩
  · exact absurd h (by simp)

/-- Everything a successful object-store copy determines: the source
content, the returned destination URL, the duplicated content at the
destination — and that the source object is untouched (server-side copy). -/
theorem s3_copy_ok (st : s3.S3) (src dest uuid : String) (st2 : s3.S3) (u : String)
    (h : s3.copy st src dest uuid = .ok (st2, u)) :
    ∃ content, st.readObject src uuid = some content ∧
      u = s3.url dest uuid ∧
      st2.readObject dest uuid = some content ∧
      (src ≠ dest → st2.readObject src uuid = some content) := by
  unfold s3.copy at h
  split at h
  · exact Except.noConfusion h
  · rename_i content hr
    split at h
    · simp only [Except.ok.injEq, Prod.mk.injEq] at h
      obtain ⟨hst, hu⟩ := h
      subst hst
      subst hu
      refine ⟨content, hr, rfl, Store.get_put_same _ _ _ _, ?_⟩
      intro hne
      show (st.objects.put dest uuid content).get src uuid = some content
      rw [Store.get_put_other _ _ _ _ _ _ fun hc => hne hc.1]
      exact hr
    · exact Except.noConfusion h

end BackendLemmas

/-- C1, counterexample: the claim says every successful copy leaves the
source artifact retrievable.  On the local backend this fails at a concrete
input: starting from a freshly staged filesystem, writing "abc" under key
"key1" to quarantine and copying it to perm succeeds, yet afterwards both
`ls` and a read of (quarantine, "key1") report the source gone — exactly the
`FileNotFoundError` the repository's `TestLocalDisk.test_copy` asserts when
re-opening the original path. -/
theorem claim_C1_counterexample :
    localdisk.write fs0 0 "abc" localdisk.QUARANTINE "key1" =
      .ok (fsA, "tmp/uploads/quarantine/key1", ⟨100, 0⟩) ∧
    localdisk.copy fsA localdisk.QUARANTINE localdisk.PERM "key1" =
      .ok (fsB, "tmp/uploads/perm/key1") ∧
    localdisk.ls fsB localdisk.QUARANTINE "key1" = none ∧
    fsB.readFile localdisk.QUARANTINE "key1" = none := by
  exact ⟨by decide, by decide, by decide, by decide⟩

/-- C1, amended: a successful copy preserves the artifact's content into the
destination stage on both backends, but only the object backend leaves the
source in place (server-side copy); the local backend relocates the file, so
the source ceases to be retrievable after the copy returns. -/
theorem claim_C1_amended (fs fs2 : FS) (st st2 : s3.S3)
    (src dest uuid p bsrc bdest okey u : String)
    (hne : src ≠ dest) (hbne : bsrc ≠ bdest)
    (hc : localdisk.copy fs src dest uuid = .ok (fs2, p))
    (hsc : s3.copy st bsrc bdest okey = .ok (st2, u)) :
    (∃ c, fs.readFile src uuid = some c ∧ fs2.readFile dest uuid = some c) ∧
    fs2.readFile src uuid = none ∧
    (∃ c, st.readObject bsrc okey = some c ∧
      st2.readObject bsrc okey = some c ∧
      st2.readObject bdest okey = some c) := by
  obtain ⟨c, hr, hp, hd, hs⟩ := localdisk_copy_ok fs src dest uuid fs2 p hc
  obtain ⟨c2, hr2, hu2, hd2, hs2⟩ := s3_copy_ok st bsrc bdest okey st2 u hsc
  exact ⟨⟨c, hr, hd⟩, hs hne, ⟨c2, hr2, hs2 hbne, hd2⟩⟩

/-- C1, witness for the amended theorem at the concrete copies of "key1"
from quarantine to perm on both backends. -/
theorem claim_C1_amended_witness :
    (∃ c, fsA.readFile localdisk.QUARANTINE "key1" = some c ∧
      fsB.readFile localdisk.PERM "key1" = some c) ∧
    fsB.readFile localdisk.QUARANTINE "key1" = none ∧
    (∃ c, stA.readObject s3.QUARANTINE "key1" = some c ∧
      stB.readObject s3.QUARANTINE "key1" = some c ∧
      stB.readObject s3.PERM "key1" = some c) :=
  claim_C1_amended fsA fsB stA stB localdisk.QUARANTINE localdisk.PERM "key1"
    "tmp/uploads/perm/key1" s3.QUARANTINE s3.PERM "key1"
    (s3.url s3.PERM "key1") (by decide) (by decide) (by decide) (by decide)

/-- C2, counterexample: the claim says a local write whose target stage
directory does not exist must fail with a not-found condition and must not
create the directory.  At the concrete input below no directory exists at
all, yet the write to the configured quarantine stage succeeds and the
returned state contains all three freshly created stage directories — the
behaviour `test_write_no_folders_at_all` asserts. -/
theorem claim_C2_counterexample :
    localdisk.write ⟨[], []⟩ 0 "abc" localdisk.QUARANTINE "key1" =
      .ok (fsA, "tmp/uploads/quarantine/key1", ⟨100, 0⟩) := by
  decide

/-- C2, amended: a local write to a destination that is not a configured
stage directory and does not exist fails with `FileNotFoundError` and no
stage directory is required to exist beforehand for configured stages: a
write to any configured stage directory succeeds, running the `stage` setup
to create the missing stage directories itself. -/
theorem claim_C2_amended (fs : FS) (now : Nat) (data dest uuid d : String)
    (h1 : fs.isdir dest = false) (h2 : dest ∉ localdisk.dirs)
    (h3 : d ∈ localdisk.dirs) :
    localdisk.write fs now data dest uuid = .error .fileNotFound ∧
    ∃ fs1 cb, localdisk.write fs now data d uuid =
      .ok (fs1, d ++ "/" ++ uuid, cb) := by
  constructor
  · exact localdisk_write_err fs now data dest uuid h1 (by simpa using h2)
  · exact ⟨_, _, localdisk_write_ok_of_dirs fs now data d uuid h3⟩

/-- C2, witness for the amended theorem: on an empty filesystem, writing to
"some-random-folder" fails while writing to quarantine succeeds. -/
theorem claim_C2_amended_witness :
    localdisk.write ⟨[], []⟩ 0 "abc" "some-random-folder" "key1" =
      .error .fileNotFound ∧
    ∃ fs1 cb, localdisk.write ⟨[], []⟩ 0 "abc" localdisk.QUARANTINE "key1" =
      .ok (fs1, localdisk.QUARANTINE ++ "/" ++ "key1", cb) :=
  claim_C2_amended ⟨[], []⟩ 0 "abc" "some-random-folder" "key1"
    localdisk.QUARANTINE (by decide) (by decide) (by decide)

/-- C3: after a successful write followed by a copy of the same key (into a
different stage), the key portion of the destination location equals the key
portion of the source location — extracted by `basename` for the local
backend's path descriptors and by the test's `_get_key` splitter for the
object backend's URL descriptors — while the two full descriptors differ. -/
theorem claim_C3_key_portion_preserved
    (fs fs1 fs2 : FS) (st st1 st2 : s3.S3) (now : Nat)
    (data src dest uuid p1 p2 sdata bsrc bdest okey u1 u2 : String)
    (cb : localdisk.DummyCallback) (up : s3.UploadProgress)
    (hkey : ∀ c ∈ uuid.data, (c == '/') = false)
    (hne : src ≠ dest)
    (hw : localdisk.write fs now data src uuid = .ok (fs1, p1, cb))
    (hc : localdisk.copy fs1 src dest uuid = .ok (fs2, p2))
    (hok1 : ∀ c ∈ okey.data, (c == '/') = false)
    (hok2 : ∀ c ∈ okey.data, (c == '?') = false)
    (hbs : ∀ c ∈ bsrc.data, (c == '/') = false)
    (hbd : ∀ c ∈ bdest.data, (c == '/') = false)
    (hbne : bsrc ≠ bdest)
    (hsw : s3.write st sdata bsrc okey = .ok (st1, u1, up))
    (hsc : s3.copy st1 bsrc bdest okey = .ok (st2, u2)) :
    basename p1 = basename p2 ∧ p1 ≠ p2 ∧
    get_key u1 = get_key u2 ∧ u1 ≠ u2 := by
  obtain ⟨hp1, -, -⟩ := localdisk_write_ok fs now data src uuid fs1 p1 cb hw
  obtain ⟨c, -, hp2, -, -⟩ := localdisk_copy_ok fs1 src dest uuid fs2 p2 hc
  obtain ⟨hu1, -, -⟩ := s3_write_ok st sdata bsrc okey st1 u1 up hsw
  obtain ⟨c2, -, hu2, -, -⟩ := s3_copy_ok st1 bsrc bdest okey st2 u2 hsc
  subst hp1
  subst hp2
  subst hu1
  subst hu2
  refine ⟨?_, ?_, ?_, ?_⟩
  · rw [basename_of_join src uuid hkey, basename_of_join dest uuid hkey]
  · exact append_right_ne _ _ _ (append_right_ne _ _ _ hne)
  · rw [get_key_url bsrc okey hbs hok1 hok2, get_key_url bdest okey hbd hok1 hok2]
  · exact url_ne_of_bucket_ne bsrc bdest okey hbne

/-- C3, witness at the concrete quarantine-to-perm write/copy sequences of
key "key1" on both backends. -/
theorem claim_C3_witness :
    basename "tmp/uploads/quarantine/key1" = basename "tmp/uploads/perm/key1" ∧
    ("tmp/uploads/quarantine/key1" : String) ≠ "tmp/uploads/perm/key1" ∧
    get_key (s3.url s3.QUARANTINE "key1") = get_key (s3.url s3.PERM "key1") ∧
    s3.url s3.QUARANTINE "key1" ≠ s3.url s3.PERM "key1" :=
  claim_C3_key_portion_preserved fs0 fsA fsB st0 stA stB 0 "abc"
    localdisk.QUARANTINE localdisk.PERM "key1"
    "tmp/uploads/quarantine/key1" "tmp/uploads/perm/key1" "abc"
    s3.QUARANTINE s3.PERM "key1"
    (s3.url s3.QUARANTINE "key1") (s3.url s3.PERM "key1") ⟨100, 0⟩ ⟨100⟩
    (by decide) (by decide) (by decide) (by decide) (by decide) (by decide)
    (by decide) (by decide) (by decide) (by decide) (by decide)

/-- C4: a successful copy duplicates the source content byte-for-byte into
the destination, on both backends: whatever content was at the source when
the copy ran is exactly what a read of the destination returns. -/
theorem claim_C4_copy_preserves_content
    (fs fs2 : FS) (st st2 : s3.S3)
    (src dest uuid p bsrc bdest okey u c c2 : String)
    (hr : fs.readFile src uuid = some c)
    (hc : localdisk.copy fs src dest uuid = .ok (fs2, p))
    (hr2 : st.readObject bsrc okey = some c2)
    (hsc : s3.copy st bsrc bdest okey = .ok (st2, u)) :
    fs2.readFile dest uuid = some c ∧ st2.readObject bdest okey = some c2 := by
  obtain ⟨c', hr', -, hd, -⟩ := localdisk_copy_ok fs src dest uuid fs2 p hc
  obtain ⟨c2', hr2', -, hd2, -⟩ := s3_copy_ok st bsrc bdest okey st2 u hsc
  have e1 : c = c' := Option.some.inj (hr.symm.trans hr')
  have e2 : c2 = c2' := Option.some.inj (hr2.symm.trans hr2')
  subst e1
  subst e2
  exact ⟨hd, hd2⟩

/-- C4, witness at the concrete quarantine-to-perm copies of key "key1". -/
theorem claim_C4_witness :
    fsB.readFile localdisk.PERM "key1" = some "abc" ∧
    stB.readObject s3.PERM "key1" = some "abc" :=
  claim_C4_copy_preserves_content fsA fsB stA stB
    localdisk.QUARANTINE localdisk.PERM "key1" "tmp/uploads/perm/key1"
    s3.QUARANTINE s3.PERM "key1" (s3.url s3.PERM "key1") "abc" "abc"
    (by decide) (by decide) (by decide) (by decide)

/-- C5: for a key absent from a stage, the local backend's `ls` returns the
non-error absence indicator `None`, while the object backend's `ls` raises a
`ClientError` whose message names the failed HeadObject metadata operation
and embeds the 404 status. -/
theorem claim_C5_ls_absence_asymmetry (fs : FS) (st : s3.S3)
    (d uuid bucket okey : String)
    (h1 : fs.readFile d uuid = none)
    (h2 : st.readObject bucket okey = none) :
    localdisk.ls fs d uuid = none ∧
    s3.ls st bucket okey = .error
      ⟨"An error occurred (404) when calling the HeadObject operation: Not Found"⟩ ∧
    List.IsInfix "HeadObject".data
      "An error occurred (404) when calling the HeadObject operation: Not Found".data ∧
    List.IsInfix "404".data
      "An error occurred (404) when calling the HeadObject operation: Not Found".data := by
  refine ⟨?_, ?_, by decide, by decide⟩
  · simp [localdisk.ls, FS.isfile, h1]
  · unfold s3.ls
    rw [h2]

/-- C5, witness on the freshly staged backends with nothing written. -/
theorem claim_C5_witness :
    localdisk.ls fs0 localdisk.QUARANTINE "key1" = none ∧
    s3.ls st0 s3.QUARANTINE "key1" = .error
      ⟨"An error occurred (404) when calling the HeadObject operation: Not Found"⟩ ∧
    List.IsInfix "HeadObject".data
      "An error occurred (404) when calling the HeadObject operation: Not Found".data ∧
    List.IsInfix "404".data
      "An error occurred (404) when calling the HeadObject operation: Not Found".data :=
  claim_C5_ls_absence_asymmetry fs0 st0 localdisk.QUARANTINE "key1"
    s3.QUARANTINE "key1" (by decide) (by decide)

/-- C6, counterexample: the claim requires that on either backend a
successful write makes the subsequent `ls` report a content length equal to
`len(content)`.  The local backend's `ls` returns only the bare indicator
`True`, so no reading of its result can yield the content length: two writes
of contents of length 3 and 5 produce the identical `ls` result, refuting
the existence of any such content-length extraction. -/
theorem claim_C6_counterexample :
    ¬ ∃ f : Option Bool → Nat,
      ∀ (fs fs1 : FS) (now : Nat) (data dest uuid p : String)
        (cb : localdisk.DummyCallback),
        localdisk.write fs now data dest uuid = .ok (fs1, p, cb) →
        f (localdisk.ls fs1 dest uuid) = data.length := by
  rintro ⟨f, hf⟩
  have h1 := hf fs0 fsA 0 "abc" localdisk.QUARANTINE "key1"
    "tmp/uploads/quarantine/key1" ⟨100, 0⟩ (by decide)
  have h2 := hf fs0 fsA5 0 "abcde" localdisk.QUARANTINE "key1"
    "tmp/uploads/quarantine/key1" ⟨100, 0⟩ (by decide)
  rw [show localdisk.ls fsA localdisk.QUARANTINE "key1" = some true from by decide] at h1
  rw [show localdisk.ls fsA5 localdisk.QUARANTINE "key1" = some true from by decide] at h2
  rw [h1] at h2
  exact absurd h2 (by decide)

/-- C6, amended: after a successful write, `ls` reports existence on both
backends, but only the object backend returns the metadata mapping with
`ContentLength` equal to `len(content)` and HTTP status 200; the local
backend reports existence as the bare indicator `True`, which carries no
content length. -/
theorem claim_C6_amended (fs fs1 : FS) (st st1 : s3.S3) (now : Nat)
    (data dest uuid p sdata bdest okey u : String)
    (cb : localdisk.DummyCallback) (up : s3.UploadProgress)
    (hw : localdisk.write fs now data dest uuid = .ok (fs1, p, cb))
    (hsw : s3.write st sdata bdest okey = .ok (st1, u, up)) :
    localdisk.ls fs1 dest uuid = some true ∧
    s3.ls st1 bdest okey = .ok ⟨sdata.length, ⟨200⟩⟩ := by
  obtain ⟨-, -, hr⟩ := localdisk_write_ok fs now data dest uuid fs1 p cb hw
  obtain ⟨-, hr2, -⟩ := s3_write_ok st sdata bdest okey st1 u up hsw
  constructor
  · simp [localdisk.ls, FS.isfile, hr]
  · unfold s3.ls
    rw [hr2]

/-- C6, witness at the concrete writes of "abc" under key "key1". -/
theorem claim_C6_witness :
    localdisk.ls fsA localdisk.QUARANTINE "key1" = some true ∧
    s3.ls stA s3.QUARANTINE "key1" = .ok ⟨("abc" : String).length, ⟨200⟩⟩ :=
  claim_C6_amended fs0 fsA st0 stA 0 "abc" localdisk.QUARANTINE "key1"
    "tmp/uploads/quarantine/key1" "abc" s3.QUARANTINE "key1"
    (s3.url s3.QUARANTINE "key1") ⟨100, 0⟩ ⟨100⟩ (by decide) (by decide)

/-- C7: the progress record returned by a successful local write is
synchronously complete: its percentage is 100 and its timestamp is exactly
the call's completion time `now` — in particular within the two-second
tolerance of the moment `write` returns. -/
theorem claim_C7_synchronous_progress (fs fs1 : FS) (now : Nat)
    (data dest uuid p : String) (cb : localdisk.DummyCallback)
    (hw : localdisk.write fs now data dest uuid = .ok (fs1, p, cb)) :
    cb.percentage = 100 ∧ cb.time_last_updated = now ∧
    cb.time_last_updated ≤ now + 2 ∧ now ≤ cb.time_last_updated + 2 := by
  obtain ⟨-, hcb, -⟩ := localdisk_write_ok fs now data dest uuid fs1 p cb hw
  subst hcb
  refine ⟨rfl, rfl, ?_, ?_⟩ <;> (dsimp only; omega)

/-- C7, witness at the concrete write of "abc" at time 0. -/
theorem claim_C7_witness :
    (⟨100, 0⟩ : localdisk.DummyCallback).percentage = 100 ∧
    (⟨100, 0⟩ : localdisk.DummyCallback).time_last_updated = 0 ∧
    (⟨100, 0⟩ : localdisk.DummyCallback).time_last_updated ≤ 0 + 2 ∧
    0 ≤ (⟨100, 0⟩ : localdisk.DummyCallback).time_last_updated + 2 :=
  claim_C7_synchronous_progress fs0 fsA 0 "abc" localdisk.QUARANTINE "key1"
    "tmp/uploads/quarantine/key1" ⟨100, 0⟩ (by decide)

/-- C8: in the operational state where exactly the configured stage
locations exist (directories created by `stage`, the three stage buckets
provisioned), `up_check` returns true on every configured stage location of
each backend and false — without raising, both functions being total boolean
probes — on any name that is not a configured stage location. -/
theorem claim_C8_up_check (fs : FS) (st : s3.S3) (d b : String)
    (hfs : fs.dirs = localdisk.dirs)
    (hst : st.buckets = [s3.QUARANTINE, s3.PERM, s3.REJECT])
    (hd1 : d ∉ localdisk.dirs)
    (hb1 : b ∉ [s3.QUARANTINE, s3.PERM, s3.REJECT]) :
    (∀ sd ∈ localdisk.dirs, localdisk.up_check fs sd = true) ∧
    localdisk.up_check fs d = false ∧
    s3.up_check st s3.QUARANTINE = true ∧
    s3.up_check st s3.PERM = true ∧
    s3.up_check st s3.REJECT = true ∧
    s3.up_check st b = false := by
  refine ⟨?_, ?_, ?_, ?_, ?_, ?_⟩
  · intro sd hsd
    simp [localdisk.up_check, FS.isdir, hfs, hsd]
  · simp [localdisk.up_check, FS.isdir, hfs, hd1]
  · unfold s3.up_check s3.S3.hasBucket
    rw [hst]
    decide
  · unfold s3.up_check s3.S3.hasBucket
    rw [hst]
    decide
  · unfold s3.up_check s3.S3.hasBucket
    rw [hst]
    decide
  · unfold s3.up_check s3.S3.hasBucket
    rw [hst]
    simpa using hb1

/-- C8, witness on the freshly provisioned backends, probing the unrelated
names the tests use. -/
theorem claim_C8_witness :
    (∀ sd ∈ localdisk.dirs, localdisk.up_check fs0 sd = true) ∧
    localdisk.up_check fs0 "some-random-folder" = false ∧
    s3.up_check st0 s3.QUARANTINE = true ∧
    s3.up_check st0 s3.PERM = true ∧
    s3.up_check st0 s3.REJECT = true ∧
    s3.up_check st0 "SomeBucket" = false :=
  claim_C8_up_check fs0 st0 "some-random-folder" "SomeBucket"
    (by decide) rfl (by decide) (by decide)

/-- C9: with no credentials configured, `send_to_influxdb` performs no HTTP
call at all and returns Python's `None`; being a total function of its
inputs it raises nothing. -/
theorem claim_C9_no_credentials_silent_no_op (values : List (String × Nat)) :
    mnm.send_to_influxdb none values = ([], none) := rfl

/-- C10: when `--build` is not passed, the parsed namespace's `build`
attribute is `False`, so evaluating the gate `args.build or args.b`
evaluates `args.b` and raises `AttributeError` (argparse never creates an
attribute `b` for the `--build, -b` flag); when `--build` is passed the gate
short-circuits to the truthy `build` attribute, so the script proceeds past
the gate exactly when `--build` is given. -/
theorem claim_C10_build_gate_attribute_error (state compose_file : String) :
    podman.build_gate (podman.parse_args state false compose_file) =
      .error "AttributeError: b" ∧
    podman.build_gate (podman.parse_args state true compose_file) =
      .ok (.bool true) :=
  ⟨rfl, rfl⟩
